import Mathlib

/-!
Verification of the Sunshine-aether-k8s-manifests asset-management UI and its
event-pipeline specification.  The repository source under scrutiny is the
React frontend (`app/webapp-ui/frontend/src`): `config.js` and the pages
`Assets.js`, `Dashboard.js`, `Events.js`, `Stats.js`.  The backend Processor
and Store are not part of the available source; where a claim is about them
they are modelled from the specification text, and each such definition is
marked `Modelled from the spec:` in its doc comment.

JavaScript values that the pages manipulate are embedded as follows: JSON
values become the inductive `Json`; possibly-absent fields become `Option`;
the JS `x || d` default pattern becomes explicit falsiness checks
(`jsNumOr0`, `jsStrOrDash`); the builtin `JSON.parse` is a parameter of the
handlers (any `String → Option Json` function), and `jsonParse` below is a
concrete executable JSON reader used to instantiate it on concrete inputs.
-/

/-- A JSON value: string, integer number, boolean, null, or object
(an ordered list of key/value fields), matching the closed variant type the
spec prescribes for open `metadata`/`data` payloads. -/
inductive Json where
  | str : String → Json
  | num : Int → Json
  | jbool : Bool → Json
  | jnull : Json
  | obj : List (String × Json) → Json


mutual

/-- Serialization of a `Json` value, embedding the JS `JSON.stringify`
used by `handleEditSubmit` to compare metadata objects. -/
def Json.stringify : Json → String
  | .str s => "\x22" ++ s ++ "\x22"
  | .num n => toString n
  | .jbool b => if b then "true" else "false"
  | .jnull => "null"
  | .obj fs => "\x7b" ++ Json.stringifyFields fs ++ "\x7d"

/-- Serialization of the field list of a JSON object. -/
def Json.stringifyFields : List (String × Json) → String
  | [] => ""
  | [(k, v)] => "\x22" ++ k ++ "\x22:" ++ Json.stringify v
  | (k, v) :: rest =>
      "\x22" ++ k ++ "\x22:" ++ Json.stringify v ++ "," ++ Json.stringifyFields rest

end

/-- The opening-brace character of a JSON object. -/
def obraceChar : Char := Char.ofNat 123

/-- The closing-brace character of a JSON object. -/
def cbraceChar : Char := Char.ofNat 125

/-- Whether a character is JSON whitespace. -/
def isJsonWs (c : Char) : Bool :=
  c == ' ' || c == '\n' || c == '\t' || c == '\r'

/-- Drop leading JSON whitespace. -/
def skipWs : List Char → List Char
  | [] => []
  | c :: cs => if isJsonWs c then skipWs cs else c :: cs

/-- Read the body of a JSON string after its opening quote, up to the
closing quote; returns the string and the remaining input. -/
def takeStr : List Char → Option (String × List Char)
  | [] => none
  | c :: cs =>
      if c == '\"' then some ("", cs)
      else match takeStr cs with
        | some (s, r) => some (String.mk (c :: s.data), r)
        | none => none

/-- Read a maximal run of decimal digits. -/
def takeDigits : List Char → List Char × List Char
  | [] => ([], [])
  | c :: cs =>
      if c.isDigit then
        let (d, r) := takeDigits cs
        (c :: d, r)
      else ([], c :: cs)

/-- Value of a list of decimal digits. -/
def digitsToNat (ds : List Char) : Nat :=
  ds.foldl (fun acc c => acc * 10 + (c.toNat - 48)) 0

mutual

/-- A small executable JSON reader (fuel-bounded): strings, integers,
`true`/`false`/`null`, and objects.  It models the JS builtin `JSON.parse`
at the concrete inputs the proofs probe; grammar-valid text yields
`some` value and malformed text yields `none`. -/
def parseValue : Nat → List Char → Option (Json × List Char)
  | 0, _ => none
  | f + 1, cs =>
      match skipWs cs with
      | [] => none
      | c :: rest =>
          if c == '\"' then
            match takeStr rest with
            | some (s, r) => some (.str s, r)
            | none => none
          else if c == obraceChar then
            match skipWs rest with
            | [] => none
            | c2 :: rest2 =>
                if c2 == cbraceChar then some (.obj [], rest2)
                else parseMembers f [] (c2 :: rest2)
          else if c == 't' then
            match rest with
            | 'r' :: 'u' :: 'e' :: r => some (.jbool true, r)
            | _ => none
          else if c == 'f' then
            match rest with
            | 'a' :: 'l' :: 's' :: 'e' :: r => some (.jbool false, r)
            | _ => none
          else if c == 'n' then
            match rest with
            | 'u' :: 'l' :: 'l' :: r => some (.jnull, r)
            | _ => none
          else if c == '-' then
            match takeDigits rest with
            | ([], _) => none
            | (ds, r) => some (.num (-(digitsToNat ds : Int)), r)
          else if c.isDigit then
            match takeDigits (c :: rest) with
            | ([], _) => none
            | (ds, r) => some (.num (digitsToNat ds : Int), r)
          else none

/-- Read the members of a JSON object after its opening brace (and not
directly at a closing brace), accumulating parsed fields. -/
def parseMembers : Nat → List (String × Json) → List Char → Option (Json × List Char)
  | fuel, acc, cs =>
      match fuel, skipWs cs with
      | _, [] => none
      | 0, _ => none
      | f + 1, c :: rest =>
          if c == '\"' then
            match takeStr rest with
            | none => none
            | some (k, r1) =>
                match skipWs r1 with
                | ':' :: r2 =>
                    match parseValue f r2 with
                    | none => none
                    | some (v, r3) =>
                        match skipWs r3 with
                        | ',' :: r4 => parseMembers f (acc ++ [(k, v)]) r4
                        | c5 :: r5 =>
                            if c5 == cbraceChar then some (.obj (acc ++ [(k, v)]), r5)
                            else none
                        | [] => none
                | _ => none
          else none

end

/-- Top-level JSON reader: parse one value and require only trailing
whitespace after it. -/
def jsonParse (s : String) : Option Json :=
  match parseValue (s.length + 1) s.data with
  | some (v, rest) => if skipWs rest = [] then some v else none
  | none => none

/-! ## Configuration (`config.js`) -/

/-- The configured API base path (`config.js`). -/
def API_BASE_URL : String := "/api"

namespace ENDPOINTS

/-- Assets endpoint (`config.js`). -/
def ASSETS : String := API_BASE_URL ++ "/assets"

/-- Events endpoint (`config.js`). -/
def EVENTS : String := API_BASE_URL ++ "/events"

/-- Stats endpoint (`config.js`). -/
def STATS : String := API_BASE_URL ++ "/stats"

/-- Health endpoint (`config.js`). -/
def HEALTH : String := API_BASE_URL ++ "/healthz"

end ENDPOINTS

/-! ## HTTP requests issued by the UI -/

/-- HTTP method of a request issued through axios. -/
inductive Method where
  | get
  | post
  | put
  | delete
deriving DecidableEq, Repr

/-- One HTTP request issued by the UI: method, URL, and JSON body
(empty for GET/DELETE). -/
structure Req where
  method : Method
  url : String
  body : List (String × Json)

/-- The requests actually issued by a handler run: a thrown error means
axios was never reached, so no request goes out. -/
def requestsOf : Except String (List Req) → List Req
  | .ok rs => rs
  | .error _ => []

/-! ## Assets page (`Assets.js`) -/

/-- The Add/Edit dialog form state (`Assets.js` `form`). -/
structure FormState where
  name : String
  type_ : String
  location : String
  status : String
  metadataText : String

/-- An Asset row as returned by the backend and held in the page state. -/
structure AssetRow where
  id : Nat
  name : String
  type_ : String
  location : String
  status : String
  metadata : Option Json
  last_updated : Option Nat

/-- The JS `String.prototype.trim` builtin, as a structurally computable
function: strip leading and trailing whitespace. -/
def jsTrim (s : String) : String :=
  String.mk (((s.data.dropWhile isJsonWs).reverse.dropWhile isJsonWs).reverse)

/-- Embeds `parseMetadata` (`Assets.js` lines 81-84): a blank (falsy after trim)
metadata text yields the empty object; otherwise the text goes through
`JSON.parse` (the `parse` parameter), and a parse failure is rethrown as
the validation error `Metadata must be valid JSON`. -/
def parseMetadata (parse : String → Option Json) (metadataText : String) :
    Except String Json :=
  if jsTrim metadataText = "" then .ok (.obj [])
  else
    match parse metadataText with
    | some j => .ok j
    | none => .error "Metadata must be valid JSON"

/-- The create payload built by `handleAddSubmit` (`Assets.js` line 88):
the object literal `{name, type, location, metadata}`. -/
def addPayload (form : FormState) (meta : Json) : List (String × Json) :=
  [("name", .str form.name), ("type", .str form.type_),
   ("location", .str form.location), ("metadata", meta)]

/-- Embeds `handleAddSubmit` (`Assets.js` lines 86-96): build the payload (which
evaluates `parseMetadata` and can throw), POST it to the assets endpoint,
then refetch the asset list; on a thrown error no request is issued and the
error message is alerted. -/
def handleAddSubmit (parse : String → Option Json) (form : FormState) :
    Except String (List Req) :=
  match parseMetadata parse form.metadataText with
  | .error msg => .error msg
  | .ok meta =>
      .ok [⟨.post, ENDPOINTS.ASSETS, addPayload form meta⟩,
           ⟨.get, ENDPOINTS.ASSETS, []⟩]

/-- The partial-update object built by `handleEditSubmit` (`Assets.js`
lines 100-106): a field enters the PUT body exactly when it differs from
the selected asset's value — strict inequality for name/type/location,
case-insensitive comparison for status, `JSON.stringify` comparison (with
`{}` for an absent metadata) for metadata. -/
def editUpdate (form : FormState) (newMeta : Json) (sel : AssetRow) :
    List (String × Json) :=
  (if form.name ≠ sel.name then [("name", Json.str form.name)] else [])
  ++ (if form.type_ ≠ sel.type_ then [("type", Json.str form.type_)] else [])
  ++ (if form.location ≠ sel.location then [("location", Json.str form.location)] else [])
  ++ (if form.status.toLower ≠ sel.status.toLower
      then [("status", Json.str form.status)] else [])
  ++ (if Json.stringify newMeta ≠ Json.stringify (sel.metadata.getD (.obj []))
      then [("metadata", newMeta)] else [])

/-- Embeds `handleEditSubmit` (`Assets.js` lines 98-114): compute the changed
fields, parse the metadata text (which can throw before any request), PUT
the partial update, then refetch; a thrown error issues no request. -/
def handleEditSubmit (parse : String → Option Json) (form : FormState)
    (sel : AssetRow) : Except String (List Req) :=
  match parseMetadata parse form.metadataText with
  | .error msg => .error msg
  | .ok newMeta =>
      .ok [⟨.put, ENDPOINTS.ASSETS ++ "/" ++ toString sel.id,
            editUpdate form newMeta sel⟩,
           ⟨.get, ENDPOINTS.ASSETS, []⟩]

/-- Embeds `handleDelete` (`Assets.js` lines 116-125): if the confirmation prompt
is declined the handler returns immediately (no request, page state kept);
if confirmed it issues the DELETE and refetches the list, so the displayed
assets become the freshly fetched ones. -/
def handleDelete (confirmed : Bool) (a : AssetRow)
    (current fetched : List AssetRow) : List Req × List AssetRow :=
  if confirmed then
    ([⟨.delete, ENDPOINTS.ASSETS ++ "/" ++ toString a.id, []⟩,
      ⟨.get, ENDPOINTS.ASSETS, []⟩], fetched)
  else ([], current)

/-! ## Shared JS-default helpers -/

/-- The JS pattern `x || 0` on a possibly-absent number: absent, `null`
and `0` are all falsy and give `0`. -/
def jsNumOr0 : Option Int → Int
  | none => 0
  | some v => if v = 0 then 0 else v

/-- The JS pattern `x || '-'` on a possibly-absent string: absent and the
empty string are falsy and give `"-"`. -/
def jsStrOrDash : Option String → String
  | none => "-"
  | some s => if s = "" then "-" else s

/-- JS string interpolation of a possibly-absent value: `undefined`
renders as the text `undefined`. -/
def jsShowOpt : Option String → String
  | none => "undefined"
  | some s => s

/-! ## Wire records consumed by the pages -/

/-- The `GET /stats` response shape; every counter may be absent. -/
structure StatsResp where
  total_events_processed : Option Int
  events_by_type : Option (List (String × Int))
  last_processed : Option String
  total_assets : Option Int
  active_assets : Option Int

/-- An Envelope-shaped record of the `GET /events` response. -/
structure UIEvent where
  event_type : String
  asset_id : Option String
  node_id : Option String
  timestamp : String
  data : Option (List (String × String))

/-- The `GET /api/system/metrics` response consumed by the Dashboard. -/
structure SysMetricsResp where
  available : Bool
  summary : List (String × String)

/-! ## Dashboard page (`Dashboard.js`) -/

/-- The Dashboard component state after `fetchAll` settles. -/
structure DashState where
  error : Option String
  stats : Option StatsResp
  events : List UIEvent
  sysMetrics : Option SysMetricsResp

/-- Embeds `fetchAll` (`Dashboard.js` lines 22-42): the three fetches run
together; the system-metrics fetch alone carries a `.catch` that
substitutes `{available: false}`, so only a stats or events failure
(modelled as `none`) reaches the outer catch and sets the page error,
leaving the initial state otherwise; on success the first five events are
kept. -/
def fetchAll (statsR : Option StatsResp) (eventsR : Option (List UIEvent))
    (metricsR : Option SysMetricsResp) : DashState :=
  let m := metricsR.getD { available := false, summary := [] }
  match statsR, eventsR with
  | some s, some e =>
      { error := none, stats := some s, events := e.take 5, sysMetrics := some m }
  | _, _ =>
      { error := some "Failed to load dashboard data", stats := none,
        events := [], sysMetrics := none }

/-- The `Total Assets` card value (`Dashboard.js` line 59):
`stats?.total_assets || 0`. -/
def dashTotalAssets (st : DashState) : Int :=
  jsNumOr0 (st.stats.bind StatsResp.total_assets)

/-- The `Events Processed` card value (`Dashboard.js` line 65):
`stats?.total_events_processed || 0`. -/
def dashEventsProcessed (st : DashState) : Int :=
  jsNumOr0 (st.stats.bind StatsResp.total_events_processed)

/-- The `Active Assets` card value (`Dashboard.js` line 71):
`stats?.active_assets || 0`. -/
def dashActiveAssets (st : DashState) : Int :=
  jsNumOr0 (st.stats.bind StatsResp.active_assets)

/-- Whether the Dashboard renders its error alert instead of content. -/
def dashRendersError (st : DashState) : Bool :=
  st.error.isSome

/-- Whether the Dashboard renders the stat cards (reached only when no
page error short-circuits the render). -/
def dashRendersStatCards (st : DashState) : Bool :=
  st.error.isNone

/-- Whether the Dashboard renders the Recent Activity section. -/
def dashRendersRecentActivity (st : DashState) : Bool :=
  st.error.isNone

/-- Whether the Dashboard renders the Host Health section
(`Dashboard.js` line 113): `sysMetrics?.available &&` guarded, inside the
non-error render. -/
def dashRendersHostHealth (st : DashState) : Bool :=
  st.error.isNone &&
    (match st.sysMetrics with
     | some m => m.available
     | none => false)

/-- The Recent Activity primary title (`Dashboard.js` line 193):
`System metrics` for `system_metrics` events, otherwise
`Asset: ${ev.asset_id}`. -/
def dashEventPrimary (ev : UIEvent) : String :=
  if ev.event_type = "system_metrics" then "System metrics"
  else "Asset: " ++ jsShowOpt ev.asset_id

/-! ## Events page (`Events.js`) -/

/-- The Events list primary title (`Events.js` lines 138-139):
`System metrics` for `system_metrics` events, otherwise
`Asset: ${event.asset_id}`. -/
def eventPrimary (ev : UIEvent) : String :=
  if ev.event_type = "system_metrics" then "System metrics"
  else "Asset: " ++ jsShowOpt ev.asset_id

/-- The rendered content of `renderSystemMetrics` (`Events.js` lines
55-102): node, timestamp and the fields of the event's `data` payload. -/
structure SysMetricsView where
  node : String
  time : String
  cpu_mem : String
  disk : String
  os_kernel : String
  lsb_release : Option String
  users : String
  processes_top : String
  network : String
  uptime : String
  loadavg : String

/-- Lookup of `d.k || '-'` where `d = event?.data || {}`. -/
def dataOrDash (d : Option (List (String × String))) (k : String) : String :=
  match (d.getD []).lookup k with
  | some v => if v = "" then "-" else v
  | none => "-"

/-- Embeds `renderSystemMetrics` (`Events.js` lines 55-102), as the structured
view it produces; it reads only `node_id`, `timestamp` and `data` of the
event, never `asset_id`. -/
def renderSystemMetrics (ev : UIEvent) : SysMetricsView :=
  { node := jsStrOrDash ev.node_id
    time := ev.timestamp
    cpu_mem := dataOrDash ev.data "cpu_mem"
    disk := dataOrDash ev.data "disk"
    os_kernel := dataOrDash ev.data "os_kernel"
    lsb_release :=
      match (ev.data.getD []).lookup "lsb_release" with
      | some v => if v = "" then none else some v
      | none => none
    users := dataOrDash ev.data "users"
    processes_top := dataOrDash ev.data "processes_top"
    network := dataOrDash ev.data "network"
    uptime := dataOrDash ev.data "uptime"
    loadavg := dataOrDash ev.data "loadavg" }

/-! ## Stats page (`Stats.js`) -/

/-- One bar of the Events-by-Type chart: the JS object `{type, count}`
(`type_` embeds the reserved word `type`). -/
structure ChartDatum where
  type_ : String
  count : Int
deriving DecidableEq, Repr

/-- Embeds `chartData` (`Stats.js` lines 48-52): `Object.entries` of
`events_by_type` mapped to `{type, count}` bars; an absent map (or absent
stats) yields the empty chart. -/
def chartData (stats : Option StatsResp) : List ChartDatum :=
  match stats.bind StatsResp.events_by_type with
  | some m => m.map (fun p => ⟨p.1, p.2⟩)
  | none => []

/-- The `Event Types` figure (`Stats.js` line 127):
`Object.keys(stats?.events_by_type || {}).length`. -/
def statsEventTypes (stats : Option StatsResp) : Nat :=
  ((stats.bind StatsResp.events_by_type).getD []).length

/-- The `Total Events Processed` figure (`Stats.js` lines 68 and 117):
`stats?.total_events_processed || 0`. -/
def statsTotalEvents (stats : Option StatsResp) : Int :=
  jsNumOr0 (stats.bind StatsResp.total_events_processed)

/-! ## The full set of HTTP requests the UI can issue -/

/-- Every axios call site in the frontend source, one constructor per
call: the Assets page CRUD calls, the Dashboard's three fetches, and the
Events and Stats page fetches. -/
inductive UIRequest where
  | assetsList
  | assetsCreate
  | assetsUpdate (id : Nat)
  | assetsDelete (id : Nat)
  | dashStats
  | dashEvents
  | dashSystemMetrics
  | eventsList
  | statsFetch
deriving DecidableEq, Repr

/-- HTTP method of each UI call site. -/
def uiMethod : UIRequest → Method
  | .assetsList => .get
  | .assetsCreate => .post
  | .assetsUpdate _ => .put
  | .assetsDelete _ => .delete
  | .dashStats => .get
  | .dashEvents => .get
  | .dashSystemMetrics => .get
  | .eventsList => .get
  | .statsFetch => .get

/-- URL of each UI call site, as the source builds it (`Assets.js` uses
`ENDPOINTS`, the other pages hardcode the same `/api/...` paths, and
`Dashboard.js` line 28 additionally fetches `/api/system/metrics`). -/
def uiUrl : UIRequest → String
  | .assetsList => ENDPOINTS.ASSETS
  | .assetsCreate => ENDPOINTS.ASSETS
  | .assetsUpdate id => ENDPOINTS.ASSETS ++ "/" ++ toString id
  | .assetsDelete id => ENDPOINTS.ASSETS ++ "/" ++ toString id
  | .dashStats => "/api/stats"
  | .dashEvents => "/api/events"
  | .dashSystemMetrics => "/api/system/metrics"
  | .eventsList => "/api/events"
  | .statsFetch => "/api/stats"

/-- The REST surface enumerated by the spec's external-interface section:
`/assets` (GET, POST), `/assets/{id}` (PUT, DELETE), `/events` (GET),
`/stats` (GET), `/healthz` (GET), under the configured API base path. -/
def specSurface (m : Method) (u : String) : Bool :=
  (u == ENDPOINTS.ASSETS && (m == .get || m == .post))
  || ((m == .put || m == .delete) && (ENDPOINTS.ASSETS ++ "/").data.isPrefixOf u.data)
  || (u == ENDPOINTS.EVENTS && m == .get)
  || (u == ENDPOINTS.STATS && m == .get)
  || (u == ENDPOINTS.HEALTH && m == .get)

/-! ## Spec-modelled backend: the Store's CRUD surface -/

/-- String field of a JSON request body. -/
def strField (body : List (String × Json)) (k : String) : String :=
  match body.lookup k with
  | some (.str s) => s
  | _ => ""

/-- JSON field of a request body, defaulting to the empty object. -/
def jsonField (body : List (String × Json)) (k : String) : Json :=
  (body.lookup k).getD (.obj [])

/-- Modelled from the spec: the Store of the Processor, the system of
record for Assets, with store-assigned primary keys (the Processor/Store
component is not part of the available source). -/
structure Store where
  nextId : Nat
  rows : List (Nat × AssetRow)

/-- Modelled from the spec: `createAsset(fields)` of the Processor's CRUD
surface — inserts a new Asset row from the `POST /assets` body with a
store-assigned id, `status` defaulted to `active` and `last_updated` set
by the mutation. -/
def createAsset (st : Store) (now : Nat) (body : List (String × Json)) :
    Store × Nat :=
  let row : AssetRow :=
    { id := st.nextId, name := strField body "name",
      type_ := strField body "type", location := strField body "location",
      status := "active", metadata := some (jsonField body "metadata"),
      last_updated := some now }
  ({ nextId := st.nextId + 1, rows := (st.nextId, row) :: st.rows }, st.nextId)

/-- Modelled from the spec: `getAsset(id)` of the Processor's CRUD
surface — fetches the Asset row by id, `NotFound` as `none`. -/
def getAsset (st : Store) (id : Nat) : Option AssetRow :=
  st.rows.lookup id

/-- Modelled from the spec: the store mutates only in response to
requests; running a list of requests through any backend step function
folds them over the store, so an empty request list leaves it unchanged. -/
def applyReqs (step : Store → Req → Store) (st : Store) (rs : List Req) : Store :=
  rs.foldl step st

/-! ## Spec-modelled backend: the Processor's idempotent event apply -/

/-- The enumerated event types of the Event Envelope. -/
inductive EventType where
  | create
  | update
  | delete
  | maintenance
  | system_metrics
deriving DecidableEq, Repr

/-- The Event Envelope: the wire representation shared by every pipeline
stage (`event_id` globally unique, `asset_id` absent for node-level
`system_metrics` events). -/
structure Envelope where
  event_id : String
  event_type : EventType
  node_id : String
  asset_id : Option String
  timestamp : Nat
  data : List (String × Json)

/-- Asset state kept by the Processor for one logical asset key. -/
structure AssetFields where
  status : String
  data : List (String × Json)

/-- Modelled from the spec: the Processor's durable state — the persisted
idempotency ledger keyed by `event_id`, the Asset table keyed by logical
asset key, and the immutable event log served by `GET /events`. -/
structure ProcState where
  ledger : List String
  assets : List (String × AssetFields)
  log : List Envelope

/-- Replace the data of the Asset with the given logical key. -/
def updateAssetData (aid : String) (d : List (String × Json))
    (assets : List (String × AssetFields)) : List (String × AssetFields) :=
  assets.map (fun p => if p.1 = aid then (p.1, { p.2 with data := d }) else p)

/-- Remove the Asset with the given logical key. -/
def removeAsset (aid : String)
    (assets : List (String × AssetFields)) : List (String × AssetFields) :=
  assets.filter (fun p => p.1 ≠ aid)

/-- Set the Asset with the given logical key to `maintenance` status. -/
def setMaintenance (aid : String)
    (assets : List (String × AssetFields)) : List (String × AssetFields) :=
  assets.map (fun p => if p.1 = aid then (p.1, { p.2 with status := "maintenance" }) else p)

/-- Modelled from the spec: the mutation a fresh (not yet applied)
envelope performs — `create` inserts the Asset (no-op on its logical key
if present), `update`/`maintenance` mutate it, `delete` removes it, and
`system_metrics` only appends an immutable log row; every persisted event
lands in the log. The ledger is untouched here. -/
def applyBody (s : ProcState) (e : Envelope) : ProcState :=
  match e.event_type, e.asset_id with
  | .system_metrics, _ => { s with log := e :: s.log }
  | .create, some aid =>
      if (s.assets.lookup aid).isSome then { s with log := e :: s.log }
      else { s with assets := (aid, ⟨"active", e.data⟩) :: s.assets,
                    log := e :: s.log }
  | .update, some aid =>
      { s with assets := updateAssetData aid e.data s.assets, log := e :: s.log }
  | .maintenance, some aid =>
      { s with assets := setMaintenance aid s.assets, log := e :: s.log }
  | .delete, some aid =>
      { s with assets := removeAsset aid s.assets, log := e :: s.log }
  | _, none => { s with log := e :: s.log }

/-- Modelled from the spec: `applyEvent(envelope)` — the idempotent upsert
of the Processor: an `event_id` already recorded in the persisted
idempotency ledger makes re-application a no-op; otherwise the event is
applied and its `event_id` is recorded in the ledger in the same
transaction. -/
def applyEvent (s : ProcState) (e : Envelope) : ProcState :=
  if s.ledger.contains e.event_id then s
  else { applyBody s e with ledger := e.event_id :: s.ledger }

/-! # Theorems -/

/-- C1: applying an envelope to the Processor twice with the same
`event_id` yields the same persisted state as applying it once: the
persisted idempotency ledger makes redelivery of an already-applied
`event_id` a no-op on the final persisted state. -/
theorem applyEvent_idem (s : ProcState) (e : Envelope) :
    applyEvent (applyEvent s e) e = applyEvent s e := by
  have key : ∀ t : ProcState, t.ledger.contains e.event_id = true →
      applyEvent t e = t := by
    intro t ht
    unfold applyEvent
    rw [if_pos ht]
  by_cases h : s.ledger.contains e.event_id = true
  · rw [key s h]
    exact key s h
  · have h1 : applyEvent s e
        = { applyBody s e with ledger := e.event_id :: s.ledger } := by
      unfold applyEvent
      rw [if_neg h]
    have hc : ((applyEvent s e).ledger).contains e.event_id = true := by
      rw [h1]
      simp [List.contains_cons]
    exact key (applyEvent s e) hc

/-- C5: with the system-metrics collaborator unreachable (metrics fetch
failed, `none`) and the other fetches fine, the Dashboard substitutes
`{available: false}`, keeps no page error, still renders the stat cards
and recent-activity sections with the fetched data, and does not render
Host Health; in general Host Health renders exactly when the metrics
response is available. -/
theorem dashboard_degrades (s : StatsResp) (e : List UIEvent) :
    (fetchAll (some s) (some e) none).error = none
    ∧ (fetchAll (some s) (some e) none).sysMetrics = some ⟨false, []⟩
    ∧ (fetchAll (some s) (some e) none).stats = some s
    ∧ (fetchAll (some s) (some e) none).events = e.take 5
    ∧ dashRendersStatCards (fetchAll (some s) (some e) none) = true
    ∧ dashRendersRecentActivity (fetchAll (some s) (some e) none) = true
    ∧ dashRendersHostHealth (fetchAll (some s) (some e) none) = false
    ∧ (∀ m : SysMetricsResp,
        dashRendersHostHealth (fetchAll (some s) (some e) (some m)) = m.available) := by
  refine ⟨rfl, rfl, rfl, rfl, rfl, rfl, rfl, ?_⟩
  intro m
  simp [fetchAll, dashRendersHostHealth]

/-- C9: the Assets page issues a DELETE request exactly when the
confirmation prompt is accepted; a declined confirmation issues no
request at all and leaves the displayed asset list unchanged. -/
theorem handleDelete_spec (confirmed : Bool) (a : AssetRow)
    (current fetched : List AssetRow) :
    ((∃ r ∈ (handleDelete confirmed a current fetched).1, r.method = .delete)
       ↔ confirmed = true)
    ∧ (confirmed = false → handleDelete confirmed a current fetched = ([], current))
    ∧ (confirmed = true → (handleDelete confirmed a current fetched).1 =
        [⟨.delete, ENDPOINTS.ASSETS ++ "/" ++ toString a.id, []⟩,
         ⟨.get, ENDPOINTS.ASSETS, []⟩]) := by
  cases confirmed <;> simp [handleDelete]

/-- C9 witness: with the confirmation declined, no request is issued and
the displayed list is unchanged. -/
theorem handleDelete_spec_witness :
    handleDelete false ⟨1, "n", "t", "l", "active", none, none⟩ [] [] = ([], []) :=
  (handleDelete_spec false ⟨1, "n", "t", "l", "active", none, none⟩ [] []).2.1 rfl

/-- C10: an absent, null or zero `total_events_processed`,
`total_assets` or `active_assets` in the `/stats` response renders as the
figure `0` on the Dashboard and Stats pages, so a missing counter is
indistinguishable from a genuine zero in the rendered output. -/
theorem missing_counter_renders_zero (st : DashState) (sp : Option StatsResp)
    (s : StatsResp) :
    ((st.stats.bind StatsResp.total_assets = none
        ∨ st.stats.bind StatsResp.total_assets = some 0) → dashTotalAssets st = 0)
    ∧ ((st.stats.bind StatsResp.total_events_processed = none
        ∨ st.stats.bind StatsResp.total_events_processed = some 0) →
          dashEventsProcessed st = 0)
    ∧ ((st.stats.bind StatsResp.active_assets = none
        ∨ st.stats.bind StatsResp.active_assets = some 0) → dashActiveAssets st = 0)
    ∧ ((sp.bind StatsResp.total_events_processed = none
        ∨ sp.bind StatsResp.total_events_processed = some 0) →
          statsTotalEvents sp = 0)
    ∧ dashTotalAssets { st with stats := some { s with total_assets := none } }
        = dashTotalAssets { st with stats := some { s with total_assets := some 0 } }
    ∧ statsTotalEvents (some { s with total_events_processed := none })
        = statsTotalEvents (some { s with total_events_processed := some 0 }) := by
  refine ⟨?_, ?_, ?_, ?_, ?_, ?_⟩ <;>
    first
    | (rintro (h | h) <;>
        simp [dashTotalAssets, dashEventsProcessed, dashActiveAssets,
              statsTotalEvents, jsNumOr0, h])
    | simp [dashTotalAssets, statsTotalEvents, jsNumOr0]

/-- C10 witness: a `/stats` response with all three counters absent
renders `0` for each figure. -/
theorem missing_counter_renders_zero_witness :
    dashTotalAssets ⟨none, some ⟨none, none, none, none, none⟩, [], none⟩ = 0
    ∧ statsTotalEvents (some ⟨none, none, none, none, none⟩) = 0 :=
  ⟨(missing_counter_renders_zero
      ⟨none, some ⟨none, none, none, none, none⟩, [], none⟩
      (some ⟨none, none, none, none, none⟩)
      ⟨none, none, none, none, none⟩).1 (Or.inl rfl),
   (missing_counter_renders_zero
      ⟨none, some ⟨none, none, none, none, none⟩, [], none⟩
      (some ⟨none, none, none, none, none⟩)
      ⟨none, none, none, none, none⟩).2.2.2.1 (Or.inl rfl)⟩

/-- Helper for C6: a title of the form `Asset: <x>` is never the title
`System metrics`. -/
theorem asset_title_ne (s : String) : "Asset: " ++ s ≠ "System metrics" := by
  intro hEq
  have h2 : ("Asset: " ++ s).data = "System metrics".data :=
    congrArg String.data hEq
  rw [String.data_append] at h2
  have h3 : "Asset: ".data = 'A' :: "sset: ".data := rfl
  rw [h3, List.cons_append] at h2
  have h4 : "System metrics".data = 'S' :: "ystem metrics".data := rfl
  rw [h4] at h2
  injection h2 with h5 _
  exact absurd h5 (by decide)

/-- C6: on both the Events page and the Dashboard's recent-activity list,
the primary title is `System metrics` exactly when `event_type` is
`system_metrics`, and `Asset: <asset_id>` for every other event type;
what `renderSystemMetrics` displays depends only on the event's
`node_id`, `timestamp` and `data`, never on any Asset reference. -/
theorem event_titles (ev : UIEvent) :
    (eventPrimary ev = "System metrics" ↔ ev.event_type = "system_metrics")
    ∧ (ev.event_type ≠ "system_metrics" →
        eventPrimary ev = "Asset: " ++ jsShowOpt ev.asset_id)
    ∧ dashEventPrimary ev = eventPrimary ev
    ∧ (∀ ev' : UIEvent, ev.node_id = ev'.node_id → ev.timestamp = ev'.timestamp →
        ev.data = ev'.data → renderSystemMetrics ev = renderSystemMetrics ev') := by
  refine ⟨?_, ?_, ?_, ?_⟩
  · constructor
    · intro h
      by_contra hne
      rw [eventPrimary, if_neg hne] at h
      exact asset_title_ne (jsShowOpt ev.asset_id) h
    · intro h
      rw [eventPrimary, if_pos h]
  · intro h
    rw [eventPrimary, if_neg h]
  · rfl
  · intro ev' h1 h2 h3
    simp [renderSystemMetrics, h1, h2, h3]

/-- C6 witness: a `system_metrics` event is titled `System metrics`, a
`create` event is titled with its asset id, and two events agreeing on
`node_id`, `timestamp` and `data` render identical system-metrics
views. -/
theorem event_titles_witness :
    eventPrimary ⟨"system_metrics", none, some "n1", "T", none⟩ = "System metrics"
    ∧ eventPrimary ⟨"create", some "a1", some "n1", "T", none⟩ = "Asset: " ++ "a1"
    ∧ renderSystemMetrics ⟨"system_metrics", none, some "n1", "T", none⟩
        = renderSystemMetrics ⟨"system_metrics", some "a9", some "n1", "T", none⟩ :=
  ⟨(event_titles ⟨"system_metrics", none, some "n1", "T", none⟩).1.mpr rfl,
   (event_titles ⟨"create", some "a1", some "n1", "T", none⟩).2.1 (by decide),
   (event_titles ⟨"system_metrics", none, some "n1", "T", none⟩).2.2.2
     ⟨"system_metrics", some "a9", some "n1", "T", none⟩ rfl rfl rfl⟩

/-- C2: a submission of the Add Asset dialog POSTs to the assets endpoint
a body with exactly the fields `name`, `type`, `location`, `metadata`
(no `status` field), and the Asset created from it, fetched back, carries
identical field values with `status` defaulted to `active` and
`last_updated` set. -/
theorem addSubmit_roundTrip (parse : String → Option Json) (form : FormState)
    (m : Json) (st : Store) (now : Nat)
    (h : parseMetadata parse form.metadataText = .ok m) :
    handleAddSubmit parse form
      = .ok [⟨.post, ENDPOINTS.ASSETS, addPayload form m⟩,
             ⟨.get, ENDPOINTS.ASSETS, []⟩]
    ∧ (addPayload form m).map Prod.fst = ["name", "type", "location", "metadata"]
    ∧ (addPayload form m).lookup "status" = none
    ∧ getAsset (createAsset st now (addPayload form m)).1
        (createAsset st now (addPayload form m)).2
      = some { id := st.nextId, name := form.name, type_ := form.type_,
               location := form.location, status := "active",
               metadata := some m, last_updated := some now } := by
  refine ⟨?_, rfl, rfl, ?_⟩
  · simp [handleAddSubmit, h]
  · simp [getAsset, createAsset, addPayload, strField, jsonField, List.lookup]

/-- C2 witness: a concrete Add submission with empty-object metadata
creates a row that reads back with the submitted fields, active status
and the mutation time. -/
theorem addSubmit_roundTrip_witness :
    getAsset (createAsset ⟨7, []⟩ 5
        (addPayload ⟨"srv1", "server", "dc1", "active", "\x7b\x7d"⟩ (.obj []))).1
      (createAsset ⟨7, []⟩ 5
        (addPayload ⟨"srv1", "server", "dc1", "active", "\x7b\x7d"⟩ (.obj []))).2
    = some ⟨7, "srv1", "server", "dc1", "active", some (.obj []), some 5⟩ :=
  (addSubmit_roundTrip jsonParse ⟨"srv1", "server", "dc1", "active", "\x7b\x7d"⟩
    (.obj []) ⟨7, []⟩ 5 (by rfl)).2.2.2

/-- C3 counterexample: the empty metadata text is not valid JSON
(`JSON.parse('')` fails, and so does the model reader), yet the Add
submission does not fail — the blank text is treated as `{}` and the POST
is issued, contradicting the claim that every invalid-JSON metadata text
is rejected with no request. -/
theorem blankMetadata_counterexample :
    jsonParse "" = none
    ∧ handleAddSubmit jsonParse ⟨"a", "t", "l", "active", ""⟩
        = .ok [⟨.post, ENDPOINTS.ASSETS,
                addPayload ⟨"a", "t", "l", "active", ""⟩ (.obj [])⟩,
               ⟨.get, ENDPOINTS.ASSETS, []⟩] :=
  ⟨rfl, rfl⟩

/-- C3 (amended): for a create or edit submission whose metadata text is
non-blank and not valid JSON, the operation fails with the validation
error `Metadata must be valid JSON`, no request is issued, and therefore
the asset store is unchanged whatever the backend's step semantics. -/
theorem metadata_invalid_rejected (parse : String → Option Json)
    (form : FormState) (sel : AssetRow) (step : Store → Req → Store) (st : Store)
    (h1 : jsTrim form.metadataText ≠ "") (h2 : parse form.metadataText = none) :
    handleAddSubmit parse form = .error "Metadata must be valid JSON"
    ∧ handleEditSubmit parse form sel = .error "Metadata must be valid JSON"
    ∧ requestsOf (handleAddSubmit parse form) = []
    ∧ requestsOf (handleEditSubmit parse form sel) = []
    ∧ applyReqs step st (requestsOf (handleAddSubmit parse form)) = st
    ∧ applyReqs step st (requestsOf (handleEditSubmit parse form sel)) = st := by
  have hp : parseMetadata parse form.metadataText
      = .error "Metadata must be valid JSON" := by
    unfold parseMetadata
    rw [if_neg h1, h2]
  refine ⟨?_, ?_, ?_, ?_, ?_, ?_⟩ <;>
    simp [handleAddSubmit, handleEditSubmit, hp, requestsOf, applyReqs]

/-- C3 witness: the concrete text `notjson` is rejected with the
validation error and no request. -/
theorem metadata_invalid_rejected_witness :
    handleAddSubmit jsonParse ⟨"a", "t", "l", "active", "notjson"⟩
      = .error "Metadata must be valid JSON" :=
  (metadata_invalid_rejected jsonParse ⟨"a", "t", "l", "active", "notjson"⟩
    ⟨1, "a", "t", "l", "active", none, none⟩ (fun s _ => s) ⟨0, []⟩
    (by decide) (by rfl)).1

/-- Helper for C4: a list is a Boolean prefix of itself followed by
anything. -/
theorem prefix_self_append (l t : List Char) : l.isPrefixOf (l ++ t) = true := by
  rw [List.isPrefixOf_iff_prefix]
  exact List.prefix_append l t

/-- C4 counterexample: the Dashboard fetches `/api/system/metrics`, which
is outside the REST surface the spec enumerates (`/assets`, `/events`,
`/stats`, `/healthz` under the API base path), so not every request the
UI issues targets that surface. -/
theorem offSurface_request :
    uiUrl UIRequest.dashSystemMetrics = "/api/system/metrics"
    ∧ uiMethod UIRequest.dashSystemMetrics = .get
    ∧ specSurface (uiMethod UIRequest.dashSystemMetrics)
        (uiUrl UIRequest.dashSystemMetrics) = false
    ∧ ¬ (∀ r : UIRequest, specSurface (uiMethod r) (uiUrl r) = true) := by
  refine ⟨rfl, rfl, by rfl, ?_⟩
  intro hall
  have h := hall .dashSystemMetrics
  rw [show specSurface (uiMethod UIRequest.dashSystemMetrics)
        (uiUrl UIRequest.dashSystemMetrics) = false from rfl] at h
  exact Bool.false_ne_true h

/-- C4 (amended): every HTTP request the UI issues, except the
Dashboard's additional `/api/system/metrics` fetch, targets the REST
surface enumerated by the spec under the configured API base path. -/
theorem uiRequests_onSurface (r : UIRequest) (h : r ≠ .dashSystemMetrics) :
    specSurface (uiMethod r) (uiUrl r) = true := by
  cases r with
  | assetsUpdate id =>
      have hp := prefix_self_append (ENDPOINTS.ASSETS ++ "/").data (toString id).data
      simp [specSurface, uiMethod, uiUrl, ← String.data_append, hp]
      simp [String.data_append, hp]
  | assetsDelete id =>
      have hp := prefix_self_append (ENDPOINTS.ASSETS ++ "/").data (toString id).data
      simp [specSurface, uiMethod, uiUrl, String.data_append, hp]
  | dashSystemMetrics => exact absurd rfl h
  | assetsList => rfl
  | assetsCreate => rfl
  | dashStats => rfl
  | dashEvents => rfl
  | eventsList => rfl
  | statsFetch => rfl

/-- C4 witness: the Assets page list fetch targets the enumerated
surface. -/
theorem uiRequests_onSurface_witness :
    specSurface (uiMethod UIRequest.assetsList) (uiUrl UIRequest.assetsList) = true :=
  uiRequests_onSurface .assetsList (by decide)

/-- C7: the Events-by-Type chart has exactly one bar per entry of
`events_by_type`, each pairing the event type with its count; the
`Event Types` figure is the number of keys; an absent map yields an empty
chart; and permuting the map's insertion order permutes the chart
accordingly, leaving the membership and the figure unchanged. -/
theorem chartData_spec (s s' : StatsResp) (m m' : List (String × Int)) :
    (s.events_by_type = some m →
      chartData (some s) = m.map (fun p => ⟨p.1, p.2⟩)
      ∧ (chartData (some s)).length = m.length
      ∧ (∀ t c, (⟨t, c⟩ : ChartDatum) ∈ chartData (some s) ↔ (t, c) ∈ m)
      ∧ statsEventTypes (some s) = m.length
      ∧ ((m.map Prod.fst).Nodup →
          ((chartData (some s)).map ChartDatum.type_).Nodup))
    ∧ (s.events_by_type = none →
        chartData (some s) = [] ∧ statsEventTypes (some s) = 0)
    ∧ chartData none = []
    ∧ (s.events_by_type = some m → s'.events_by_type = some m' → m.Perm m' →
        (chartData (some s)).Perm (chartData (some s'))
        ∧ statsEventTypes (some s) = statsEventTypes (some s')) := by
  refine ⟨?_, ?_, rfl, ?_⟩
  · intro h
    have hc : chartData (some s) = m.map (fun p => (⟨p.1, p.2⟩ : ChartDatum)) := by
      simp [chartData, h]
    have hmap : (chartData (some s)).map ChartDatum.type_ = m.map Prod.fst := by
      rw [hc, List.map_map]
      rfl
    refine ⟨hc, by rw [hc, List.length_map], ?_, by simp [statsEventTypes, h], ?_⟩
    · intro t c
      rw [hc]
      constructor
      · intro hm
        rcases List.mem_map.mp hm with ⟨⟨a, b⟩, hp, he⟩
        injection he with h1 h2
        rw [← h1, ← h2]
        exact hp
      · intro hm
        exact List.mem_map.mpr ⟨(t, c), hm, rfl⟩
    · intro hn
      rw [hmap]
      exact hn
  · intro h
    exact ⟨by simp [chartData, h], by simp [statsEventTypes, h]⟩
  · intro h h' hperm
    have hc : chartData (some s) = m.map (fun p => (⟨p.1, p.2⟩ : ChartDatum)) := by
      simp [chartData, h]
    have hc' : chartData (some s') = m'.map (fun p => (⟨p.1, p.2⟩ : ChartDatum)) := by
      simp [chartData, h']
    refine ⟨?_, ?_⟩
    · rw [hc, hc']
      exact hperm.map _
    · simp [statsEventTypes, h, h', hperm.length_eq]

/-- C7 witness: a concrete two-entry `events_by_type` yields exactly the
two matching bars and the figure 2. -/
theorem chartData_spec_witness :
    chartData (some ⟨some 3, some [("create", 2), ("system_metrics", 1)], none, some 1, some 1⟩)
      = [⟨"create", 2⟩, ⟨"system_metrics", 1⟩]
    ∧ statsEventTypes (some ⟨some 3, some [("create", 2), ("system_metrics", 1)], none, some 1, some 1⟩) = 2 :=
  ⟨((chartData_spec ⟨some 3, some [("create", 2), ("system_metrics", 1)], none, some 1, some 1⟩
      ⟨some 3, some [("create", 2), ("system_metrics", 1)], none, some 1, some 1⟩
      [("create", 2), ("system_metrics", 1)] [("create", 2), ("system_metrics", 1)]).1 rfl).1,
   ((chartData_spec ⟨some 3, some [("create", 2), ("system_metrics", 1)], none, some 1, some 1⟩
      ⟨some 3, some [("create", 2), ("system_metrics", 1)], none, some 1, some 1⟩
      [("create", 2), ("system_metrics", 1)] [("create", 2), ("system_metrics", 1)]).1 rfl).2.2.2.1⟩

/-- Helper for C8: membership in a conditional singleton list. -/
theorem mem_ite_singleton {α : Type} (x y : α) (c : Prop) [Decidable c] :
    (x ∈ if c then [y] else []) ↔ c ∧ x = y := by
  split_ifs with h <;> simp [h]

/-- C8: the PUT body of an edit submission contains exactly the fields
of name/type/location/status/metadata whose new value differs from the
selected asset's current value — strict comparison for
name/type/location, case-insensitive for status, `JSON.stringify`
comparison for metadata — unchanged fields are omitted, no other key
occurs, and the request goes to `PUT /assets/{id}` with this body. -/
theorem editUpdate_spec (form : FormState) (newMeta : Json) (sel : AssetRow) :
    (∀ v : Json, ("name", v) ∈ editUpdate form newMeta sel
        ↔ form.name ≠ sel.name ∧ v = .str form.name)
    ∧ (∀ v : Json, ("type", v) ∈ editUpdate form newMeta sel
        ↔ form.type_ ≠ sel.type_ ∧ v = .str form.type_)
    ∧ (∀ v : Json, ("location", v) ∈ editUpdate form newMeta sel
        ↔ form.location ≠ sel.location ∧ v = .str form.location)
    ∧ (∀ v : Json, ("status", v) ∈ editUpdate form newMeta sel
        ↔ form.status.toLower ≠ sel.status.toLower ∧ v = .str form.status)
    ∧ (∀ v : Json, ("metadata", v) ∈ editUpdate form newMeta sel
        ↔ Json.stringify newMeta ≠ Json.stringify (sel.metadata.getD (.obj []))
          ∧ v = newMeta)
    ∧ (∀ kv ∈ editUpdate form newMeta sel,
        kv.1 ∈ (["name", "type", "location", "status", "metadata"] : List String))
    ∧ (∀ (parse : String → Option Json) (m : Json),
        parseMetadata parse form.metadataText = .ok m →
        handleEditSubmit parse form sel
          = .ok [⟨.put, ENDPOINTS.ASSETS ++ "/" ++ toString sel.id,
                  editUpdate form m sel⟩, ⟨.get, ENDPOINTS.ASSETS, []⟩]) := by
  refine ⟨?_, ?_, ?_, ?_, ?_, ?_, ?_⟩
  · intro v
    simp [editUpdate, List.mem_append, mem_ite_singleton, Prod.mk.injEq]
  · intro v
    simp [editUpdate, List.mem_append, mem_ite_singleton, Prod.mk.injEq]
  · intro v
    simp [editUpdate, List.mem_append, mem_ite_singleton, Prod.mk.injEq]
  · intro v
    simp [editUpdate, List.mem_append, mem_ite_singleton, Prod.mk.injEq]
  · intro v
    simp [editUpdate, List.mem_append, mem_ite_singleton, Prod.mk.injEq]
  · intro kv hkv
    simp only [editUpdate, List.mem_append, mem_ite_singleton] at hkv
    rcases hkv with ((((⟨-, h⟩ | ⟨-, h⟩) | ⟨-, h⟩) | ⟨-, h⟩) | ⟨-, h⟩) <;>
      subst h <;> simp
  · intro parse m hm
    simp [handleEditSubmit, hm]

/-- C8 witness: for a concrete edit in which only the name changed, the
name field belongs to the PUT body, and the PUT goes to the asset's URL
with that body. -/
theorem editUpdate_spec_witness :
    ("name", Json.str "n2") ∈ editUpdate ⟨"n2", "t", "l", "active", "\x7b\x7d"⟩ (.obj [])
        ⟨1, "n1", "t", "l", "active", some (.obj []), some 0⟩
    ∧ handleEditSubmit jsonParse ⟨"n2", "t", "l", "active", "\x7b\x7d"⟩
        ⟨1, "n1", "t", "l", "active", some (.obj []), some 0⟩
      = .ok [⟨.put, ENDPOINTS.ASSETS ++ "/" ++ toString 1,
              editUpdate ⟨"n2", "t", "l", "active", "\x7b\x7d"⟩ (.obj [])
                ⟨1, "n1", "t", "l", "active", some (.obj []), some 0⟩⟩,
             ⟨.get, ENDPOINTS.ASSETS, []⟩] :=
  ⟨((editUpdate_spec ⟨"n2", "t", "l", "active", "\x7b\x7d"⟩ (.obj [])
      ⟨1, "n1", "t", "l", "active", some (.obj []), some 0⟩).1 (.str "n2")).mpr
      ⟨by decide, rfl⟩,
   (editUpdate_spec ⟨"n2", "t", "l", "active", "\x7b\x7d"⟩ (.obj [])
      ⟨1, "n1", "t", "l", "active", some (.obj []), some 0⟩).2.2.2.2.2.2
      jsonParse (.obj []) (by rfl)⟩
